import Mathlib

/-
Verification of the conversational-search CLI core (plexsearch).

The development shallowly embeds src/plexsearch/core.py: the two response
renderers (handle_no_stream_search, handle_streaming_search), one iteration
of the interactive loop (handle_interactive_mode, lines 85-101), the SIGINT
handler installed by setup_signal_handler, and the static name-resolution
facts of the module.  The remote SearchClient boundary is modelled, as in the
spec, as a finite sequence of text fragments optionally terminated by a
transport failure.  Turn logging (log_conversation) and the Markdown
transcript formatter (_format_message_to_markdown) are referenced by the
test suite but absent from the sources; they are modelled from the spec and
marked as such in their doc comments.
-/

namespace PlexSearch

/-- A conversation message.  core.py builds these as dicts with keys
role and content (e.g. lines 95 and 98). -/
structure Turn where
  role : String
  content : String
deriving DecidableEq, Repr

/-- Python exception taxonomy relevant to core.py.  systemExit models
SystemExit, which derives from BaseException only, so an
except-Exception clause does not catch it. -/
inductive PyErr where
  | nameError (missing : String)
  | transport (msg : String)
  | systemExit (code : Nat)
  | ioError (msg : String)
deriving DecidableEq, Repr

/-- Whether a Python except-Exception clause (core.py lines 99 and 140)
catches the raised object.  SystemExit derives from BaseException, not
Exception, so it is never caught by such a clause. -/
def isException : PyErr → Bool
  | .systemExit _ => false
  | _ => true

/-- The str() rendering of an exception, as interpolated into the error
messages printed by core.py. -/
def errText : PyErr → String
  | .nameError n => "name \x27" ++ n ++ "\x27 is not defined"
  | .transport m => m
  | .systemExit c => toString c
  | .ioError m => m

/-- Python str.lower (core.py line 90 applies it to the raw input). -/
def pyLower (s : String) : String := String.mk (s.data.map Char.toLower)

/-- Python str.strip (core.py line 87 applies it to the raw input):
whitespace removed from both ends. -/
def pyStrip (s : String) : String :=
  String.mk (((s.data.dropWhile Char.isWhitespace).reverse.dropWhile
      Char.isWhitespace).reverse)

/-- Concatenation of a fragment list, modelling Python str.join with the
empty separator (core.py line 50) and the spec-side notation f1+f2+...+fn. -/
def sjoin : List String → String
  | [] => ""
  | s :: ss => s ++ sjoin ss

/-- The SearchClient boundary as the spec fixes it: a finite lazy sequence
of text fragments which either completes normally or, after yielding all
of fragments, terminates by raising TransportError with terminalError. -/
structure FragmentStream where
  fragments : List String
  terminalError : Option String
deriving DecidableEq, Repr

/-- One observable terminal action of the renderer layer.  update models
Live.update (in-place re-render of the current renderable); spinnerShown
and spinnerRemoved model a transient Live spinner entering and leaving. -/
inductive DisplayEvent where
  | printed (s : String)
  | cleared
  | spinnerShown (s : String)
  | spinnerRemoved
  | update (s : String)
deriving DecidableEq, Repr

/-- A run of h newline characters: console.print of a newline block in
clear_new_area (core.py line 32), h being the terminal height. -/
def newlines (h : Nat) : String := String.mk (List.replicate h (Char.ofNat 10))

/-- Display events of clear_new_area (core.py lines 27-34): a notice, a
newline block pushing content up, then a Rich clear. -/
def clearNewAreaEvents (h : Nat) : List DisplayEvent :=
  [DisplayEvent.printed "[cyan]Clearing screen...[/cyan]",
   DisplayEvent.printed (newlines h),
   DisplayEvent.cleared]

/-- Fixed display prefix of handle_no_stream_search (core.py lines 38-43):
the pre-clear notice, clear_new_area, and the transient spinner.  None of
these events depends on the fragment sequence. -/
def noStreamPreEvents (h : Nat) : List DisplayEvent :=
  DisplayEvent.printed "[cyan]About to clear screen in no_stream mode...[/cyan]" ::
    clearNewAreaEvents h ++ [DisplayEvent.spinnerShown "Searching..."]

/-- The chunk loop of handle_no_stream_search (core.py lines 44-48):
buffer.append(chunk) for each chunk, emitting no display event. -/
def bufferLoop (buffer : List String) : List String → List String
  | [] => buffer
  | c :: cs => bufferLoop (buffer ++ [c]) cs

/-- handle_no_stream_search (core.py lines 36-52), with the fragment source
passed explicitly at the SearchClient boundary.  The chunk loop (lines
44-48) only appends to the local buffer and emits no display event; on
normal completion the joined buffer is printed once (line 51) and returned
(line 52).  The function contains no try/except, so a TransportError
raised by the source propagates out (the transient Live spinner is removed
by the with-block exit, and the local buffer is lost). -/
def handleNoStreamSearch (h : Nat) (src : FragmentStream) :
    Except PyErr String × List DisplayEvent :=
  match src.terminalError with
  | none =>
      let content := sjoin (bufferLoop [] src.fragments)
      (Except.ok content,
       noStreamPreEvents h ++
         [DisplayEvent.spinnerRemoved,
          DisplayEvent.printed ("Perplexity: " ++ content)])
  | some m =>
      (Except.error (PyErr.transport m),
       noStreamPreEvents h ++ [DisplayEvent.spinnerRemoved])

/-- The chunk loop of handle_streaming_search (core.py lines 58-63):
accumulated_text starts at acc, each chunk is appended and the grown
buffer is re-rendered in place via Live.update with the fixed
Perplexity label.  Returns the final accumulated text and the update
events in order. -/
def streamChunks (acc : String) : List String → String × List DisplayEvent
  | [] => (acc, [])
  | c :: cs =>
      let acc2 := acc ++ c
      let r := streamChunks acc2 cs
      (r.1, DisplayEvent.update ("Perplexity: " ++ acc2) :: r.2)

/-- handle_streaming_search (core.py lines 54-64), with the fragment source
passed explicitly at the SearchClient boundary.  On normal completion the
accumulated text is returned (line 64).  The function contains no
try/except, so a TransportError raised by the source after its fragments
propagates out; the Live display (transient=False) keeps showing the last
rendered state, and no further event is emitted. -/
def handleStreamingSearch (src : FragmentStream) :
    Except PyErr String × List DisplayEvent :=
  let r := streamChunks "" src.fragments
  match src.terminalError with
  | none => (Except.ok r.1, r.2)
  | some m => (Except.error (PyErr.transport m), r.2)

/-- The current renderable of a Live region after a list of events: it
starts as cur (the empty string at Live construction, core.py line 57) and
each update replaces it.  With transient=False this is what remains
visible when the with-block exits. -/
def finalRenderable (cur : String) : List DisplayEvent → String
  | [] => cur
  | DisplayEvent.update s :: evs => finalRenderable s evs
  | _ :: evs => finalRenderable cur evs

/-- Refresh-rate coalescing: the bounded-rate refresh thread makes only
some of the intermediate updates visible, as chosen by the schedule sched
(one Boolean per update event, exhausted schedules showing nothing). -/
def selectFrames : List Bool → List DisplayEvent → List String
  | _, [] => []
  | sched, DisplayEvent.update s :: evs =>
      match sched with
      | [] => selectFrames [] evs
      | b :: bs =>
          if b then s :: selectFrames bs evs else selectFrames bs evs
  | sched, _ :: evs => selectFrames sched evs

/-- The frames a streaming-mode run makes visible under coalescing
schedule sched: the scheduled subsequence of intermediate updates,
followed by the final renderable left on screen by the non-transient Live
exit. -/
def visibleFrames (sched : List Bool) (src : FragmentStream) : List String :=
  let evs := (handleStreamingSearch src).2
  selectFrames sched evs ++ [finalRenderable "" evs]

/-- Outcome classification of one iteration of the interactive loop. -/
inductive LoopAction where
  | reprompted
  | exited
  | searched
  | aborted (e : PyErr)
deriving DecidableEq, Repr

/-- Observable result of one iteration of the interactive loop: the
context after the iteration, how the iteration ended, the console.print
outputs, the stderr outputs, and the query passed to handle_search (if
the input was submitted at all). -/
structure StepResult where
  ctx : List Turn
  action : LoopAction
  shown : List String
  diag : List String
  submitted : Option String
deriving DecidableEq, Repr

/-- Console prompt shown for blank input (core.py line 88). -/
def promptAgainMsg : String :=
  "[yellow]Please enter a query or type \x27exit\x27 to quit.[/yellow]"

/-- Console notice shown on exit (core.py line 91). -/
def exitMsg : String := "[yellow]Exiting interactive mode.[/yellow]"

/-- The error line printed (to the console and to stderr) by the except
clause of the interactive loop (core.py lines 100-101). -/
def errShown (e : PyErr) : String := "[red]Error:[/red] " ++ errText e

/-- Console prints performed by clear_new_area (core.py lines 29-32). -/
def clearShown (h : Nat) : List String :=
  ["[cyan]Clearing screen...[/cyan]", newlines h]

/-- One iteration of the while-loop of handle_interactive_mode (core.py
lines 85-101), from a freshly read input line.  The call to handle_search
is represented at the session boundary by its outcome search (content
returned, or exception raised); its internal name-resolution defect is
analysed separately.  Faithful to the source: blank input re-prompts (87-89);
the literal exit after lowering breaks the loop (90-92); otherwise the
screen is cleared (94), the user Turn is appended BEFORE the attempt (95),
and then the try block either appends the assistant Turn (97-98) or an
except-Exception clause reports the error to the console and to stderr and
the loop continues (99-101).  A raised object that is not an Exception
(SystemExit from the SIGINT handler) is not caught and aborts the loop. -/
def interactiveStep (ctx : List Turn) (userInput : String) (h : Nat)
    (search : Except PyErr String) : StepResult :=
  if pyStrip userInput = "" then
    ⟨ctx, LoopAction.reprompted, [promptAgainMsg], [], none⟩
  else if pyLower userInput = "exit" then
    ⟨ctx, LoopAction.exited, [exitMsg], [], none⟩
  else
    let ctx1 := ctx ++ [⟨"user", userInput⟩]
    match search with
    | Except.ok content =>
        ⟨ctx1 ++ [⟨"assistant", content⟩], LoopAction.searched,
         clearShown h, [], some userInput⟩
    | Except.error e =>
        if isException e then
          ⟨ctx1, LoopAction.searched,
           clearShown h ++ [errShown e], [errShown e], some userInput⟩
        else
          ⟨ctx1, LoopAction.aborted e, clearShown h, [], some userInput⟩

/-- One external stimulus fed to the interactive loop: either a line of
input together with the outcome of the handle_search call it triggers, or
a SIGINT delivered while the loop is at the prompt.  A SIGINT delivered
mid-search is modelled as the search raising SystemExit 0, which is what
the installed handler (core.py lines 105-107) turns it into. -/
inductive LoopEvent where
  | line (s : String) (search : Except PyErr String)
  | interrupt
deriving Repr

/-- Fate of the process as the loop runs. -/
inductive ProcOutcome where
  | prompting
  | finished
  | exitedWith (code : Nat)
  | crashed (e : PyErr)
deriving DecidableEq, Repr

/-- Unwinding of an object raised out of the loop body: main wraps
everything in try/except Exception (core.py lines 113-143), which catches
Exceptions and exits 1, but SystemExit passes through and terminates the
process with its code. -/
def outcomeOfUncaught : PyErr → ProcOutcome
  | PyErr.systemExit c => ProcOutcome.exitedWith c
  | e => ProcOutcome.crashed e

/-- The interactive loop of handle_interactive_mode driven by a list of
stimuli, after setup_signal_handler has installed the SIGINT handler.  A
SIGINT at the prompt runs the handler, whose sys.exit(0) raises SystemExit
from the console.input call site (outside the try block); no enclosing
except-Exception clause matches it, so the process exits 0 at once and
later stimuli are never consumed.  Exhausting the stimuli leaves the loop
at the prompt; the exit input returns from handle_interactive_mode and
main then finishes normally. -/
def runLoop (ctx : List Turn) (h : Nat) : List LoopEvent → List Turn × ProcOutcome
  | [] => (ctx, ProcOutcome.prompting)
  | LoopEvent.interrupt :: _ => (ctx, ProcOutcome.exitedWith 0)
  | LoopEvent.line s r :: rest =>
      let st := interactiveStep ctx s h r
      match st.action with
      | LoopAction.exited => (st.ctx, ProcOutcome.finished)
      | LoopAction.aborted e => (st.ctx, outcomeOfUncaught e)
      | _ => runLoop st.ctx h rest

/-- Names bound at module level in src/plexsearch/core.py, in binding
order: the imports of lines 1-11 and the definitions of lines 14-111. -/
def coreModuleNames : List String :=
  ["sys", "signal", "Optional", "List", "Dict", "Console", "Live", "Spinner",
   "__version__", "UpdateChecker", "PerplexityAPI", "Config",
   "ConversationContext", "console", "get_terminal_size", "clear_new_area",
   "handle_no_stream_search", "handle_streaming_search", "handle_search",
   "handle_interactive_mode", "setup_signal_handler", "main"]

/-- Global (non-local, non-builtin) names read by handle_search (core.py
lines 66-77), in evaluation order, up to and including the handler whose
invocation would lead to the search request.  When args.no_stream is truthy
the or-expression short-circuits and os is never read; otherwise os is
read first (line 68).  Either way _build_api_payload is read next (line 69)
before the dispatch of lines 74-77. -/
def handleSearchGlobalReads (noStream : Bool) : List String :=
  if noStream then ["_build_api_payload", "handle_no_stream_search"]
  else ["os", "_build_api_payload", "handle_streaming_search"]

/-- Global names read by handle_no_stream_search (core.py lines 36-52), in
evaluation order, up to and including perform_search — the very name whose
call (line 44) would issue the outbound search request. -/
def handleNoStreamGlobalReads : List String :=
  ["console", "clear_new_area", "Live", "Spinner", "perform_search"]

/-- Global names read by handle_streaming_search (core.py lines 54-64), in
evaluation order, up to and including perform_search (line 58). -/
def handleStreamingGlobalReads : List String :=
  ["Live", "perform_search"]

/-- First global names read inside the try block of main (core.py lines
114-118), in evaluation order. -/
def mainGlobalReads : List String :=
  ["parse_arguments", "setup_signal_handler", "UpdateChecker", "__version__"]

/-- Names that plexsearch/__init__.py line 7 imports from .core. -/
def initImportsFromCore : List String := ["perform_search", "main"]

/-- The first name of a read sequence that Python name resolution cannot
bind in the module namespace env: reading it raises NameError. -/
def firstUnbound (env : List String) (reads : List String) : Option String :=
  reads.find? (fun n => !(env.contains n))

/-- The SIGINT handler installed by setup_signal_handler (core.py lines
103-109): it prints a notice and calls sys.exit(0), i.e. raises
SystemExit 0.  It touches no conversation context. -/
def sigintHandler : List String × PyErr :=
  (["\n[yellow]Search interrupted by user[/yellow]"], PyErr.systemExit 0)

/-- Modelled from the spec: log_conversation is referenced by the test
suite (src/tests/test_core.py lines 130-146) but missing from
src/plexsearch/core.py.  Spec section 6: the log file holds one
JSON-serialized Turn object per line, UTF-8, append mode.  The characters
below model the JSON encoding of one Turn dict with keys role and content,
with standard JSON string escaping for the quote, the backslash and
control characters.  hexDigitChar is the lower-case hex digit of n. -/
def hexDigitChar (n : Nat) : Char :=
  if n < 10 then Char.ofNat (48 + n) else Char.ofNat (87 + n)

/-- Value of a lower-case hex digit character, if it is one. -/
def hexVal (c : Char) : Option Nat :=
  if 48 ≤ c.toNat ∧ c.toNat ≤ 57 then some (c.toNat - 48)
  else if 97 ≤ c.toNat ∧ c.toNat ≤ 102 then some (c.toNat - 87)
  else none

/-- JSON escaping of one character inside a JSON string literal: the quote
and the backslash get a backslash escape, control characters (below 0x20,
newline included) become a \u00XX escape, anything else stands for
itself. -/
def escChar (c : Char) : List Char :=
  if c = Char.ofNat 34 then [Char.ofNat 92, Char.ofNat 34]
  else if c = Char.ofNat 92 then [Char.ofNat 92, Char.ofNat 92]
  else if c.toNat < 32 then
    [Char.ofNat 92, 'u', '0', '0',
     hexDigitChar (c.toNat / 16), hexDigitChar (c.toNat % 16)]
  else [c]

/-- JSON escaping of a whole string body. -/
def escapeStr : List Char → List Char
  | [] => []
  | c :: cs => escChar c ++ escapeStr cs

/-- Parse the body of a JSON string literal up to and including its
closing quote, undoing escChar; returns the decoded body and the
remaining characters. -/
def parseStrBody : List Char → Option (List Char × List Char)
  | [] => none
  | c :: rest =>
      if c = Char.ofNat 34 then some ([], rest)
      else if c = Char.ofNat 92 then
        match rest with
        | [] => none
        | e :: rest2 =>
            if e = Char.ofNat 34 then
              (parseStrBody rest2).map (fun p => (Char.ofNat 34 :: p.1, p.2))
            else if e = Char.ofNat 92 then
              (parseStrBody rest2).map (fun p => (Char.ofNat 92 :: p.1, p.2))
            else if e = 'u' then
              match rest2 with
              | z1 :: z2 :: h1 :: h2 :: rest3 =>
                  if z1 = '0' ∧ z2 = '0' then
                    match hexVal h1, hexVal h2 with
                    | some d1, some d2 =>
                        (parseStrBody rest3).map
                          (fun p => (Char.ofNat (16 * d1 + d2) :: p.1, p.2))
                    | _, _ => none
                  else none
              | _ => none
            else none
      else (parseStrBody rest).map (fun p => (c :: p.1, p.2))
termination_by l => l.length
decreasing_by all_goals simp_arith [*]

/-- Strip an expected literal prefix, returning the remainder. -/
def stripPref : List Char → List Char → Option (List Char)
  | [], cs => some cs
  | _ :: _, [] => none
  | p :: ps, c :: cs => if p = c then stripPref ps cs else none

/-- Characters opening the JSON record, through the opening quote of the
role value. -/
def jsonOpen : List Char := ("\x7b\"role\": \"").data

/-- Characters between the role value (whose closing quote the string
parser consumes) and the opening quote of the content value. -/
def jsonMidTail : List Char := (", \"content\": \"").data

/-- Characters closing the JSON record after the content value: just the
closing brace (the closing quote is consumed by the string parser). -/
def jsonClose : List Char := ("\x7d").data

/-- Modelled from the spec: JSON serialization of one Turn as a single
log line (without the line separator), keys in insertion order. -/
def encodeTurn (t : Turn) : List Char :=
  jsonOpen ++ escapeStr t.role.data ++
    (Char.ofNat 34 :: jsonMidTail) ++ escapeStr t.content.data ++
    (Char.ofNat 34 :: jsonClose)

/-- Modelled from the spec: one JSON parse of one log line back into a
Turn. -/
def decodeTurn (cs : List Char) : Option Turn :=
  match stripPref jsonOpen cs with
  | none => none
  | some rest1 =>
      match parseStrBody rest1 with
      | none => none
      | some (role, rest2) =>
          match stripPref jsonMidTail rest2 with
          | none => none
          | some rest3 =>
              match parseStrBody rest3 with
              | none => none
              | some (content, rest4) =>
                  if rest4 = jsonClose then
                    some ⟨String.mk role, String.mk content⟩
                  else none

/-- Serialized records, each followed by the newline that ends its log
line. -/
def encodeLines : List Turn → List Char
  | [] => []
  | t :: ts => encodeTurn t ++ Char.ofNat 10 :: encodeLines ts

/-- Modelled from the spec: appending a Turn list to the log file (append
mode: the existing bytes are kept and the new records follow). -/
def writeLog (file : List Char) (ts : List Turn) : List Char :=
  file ++ encodeLines ts

/-- Split a byte/character stream into newline-terminated lines, the way
iterating a text file yields them (the separator dropped, no empty final
line when the file ends with a newline). -/
def splitLines : List Char → List (List Char)
  | [] => []
  | c :: cs =>
      if c = Char.ofNat 10 then [] :: splitLines cs
      else
        match splitLines cs with
        | [] => [[c]]
        | l :: ls => (c :: l) :: ls

/-- One JSON parse per line, all lines required to succeed in order. -/
def decodeLines : List (List Char) → Option (List Turn)
  | [] => some []
  | l :: ls =>
      match decodeTurn l, decodeLines ls with
      | some t, some ts => some (t :: ts)
      | _, _ => none

/-- Modelled from the spec: reading the log file back, one JSON parse per
line. -/
def readLog (cs : List Char) : Option (List Turn) :=
  decodeLines (splitLines cs)

/-- Python str.capitalize: first character upper-cased, the rest
lower-cased. -/
def pyCapitalize (s : String) : String :=
  match s.data with
  | [] => ""
  | c :: cs => String.mk (c.toUpper :: cs.map Char.toLower)

/-- Modelled from the spec: _format_message_to_markdown is referenced by
the test suite (src/tests/test_core.py lines 148-151) but missing from
src/plexsearch/core.py.  Spec section 6: one transcript block per Turn,
the capitalized role in double asterisks, a colon and space, the content,
and a blank-line separator. -/
def formatMessageToMarkdown (t : Turn) : String :=
  "**" ++ pyCapitalize t.role ++ "**: " ++ t.content ++ "\n\n"

/-- The buffer of the no-stream chunk loop ends holding exactly the
fragments, in order. -/
theorem bufferLoop_eq : ∀ (fs buffer : List String),
    bufferLoop buffer fs = buffer ++ fs
  | [], buffer => by simp [bufferLoop]
  | c :: cs, buffer => by
      simp [bufferLoop, bufferLoop_eq cs (buffer ++ [c])]

/-- The streaming chunk loop returns the starting accumulator followed by
the concatenation of the fragments. -/
theorem streamChunks_fst : ∀ (fs : List String) (acc : String),
    (streamChunks acc fs).1 = acc ++ sjoin fs
  | [], acc => by simp [streamChunks, sjoin, String.append_empty]
  | c :: cs, acc => by
      simp [streamChunks, sjoin, streamChunks_fst cs (acc ++ c),
        String.append_assoc]

/-- The renderable left on a Live region by a non-empty streaming chunk
loop: the label followed by the whole accumulated text. -/
theorem finalRenderable_streamChunks_cons :
    ∀ (cs : List String) (c acc cur : String),
      finalRenderable cur (streamChunks acc (c :: cs)).2 =
        "Perplexity: " ++ (acc ++ (c ++ sjoin cs))
  | [], c, acc, cur => by
      calc finalRenderable cur (streamChunks acc [c]).2
          = "Perplexity: " ++ (acc ++ c) := rfl
        _ = "Perplexity: " ++ (acc ++ (c ++ "")) := by rw [String.append_empty]
        _ = "Perplexity: " ++ (acc ++ (c ++ sjoin [])) := rfl
  | d :: ds, c, acc, cur => by
      calc finalRenderable cur (streamChunks acc (c :: d :: ds)).2
          = finalRenderable ("Perplexity: " ++ (acc ++ c))
              (streamChunks (acc ++ c) (d :: ds)).2 := rfl
        _ = "Perplexity: " ++ ((acc ++ c) ++ (d ++ sjoin ds)) :=
              finalRenderable_streamChunks_cons ds d (acc ++ c)
                ("Perplexity: " ++ (acc ++ c))
        _ = "Perplexity: " ++ (acc ++ (c ++ (d ++ sjoin ds))) := by
              rw [String.append_assoc]
        _ = "Perplexity: " ++ (acc ++ (c ++ sjoin (d :: ds))) := rfl

/-- The renderable left on a Live region by the streaming chunk loop: the
starting renderable when no fragment arrived, otherwise the label followed
by the whole accumulated text. -/
theorem finalRenderable_streamChunks (fs : List String) (acc cur : String) :
    finalRenderable cur (streamChunks acc fs).2 =
      if fs.isEmpty then cur else "Perplexity: " ++ (acc ++ sjoin fs) := by
  cases fs with
  | nil => rfl
  | cons c cs => simpa [sjoin] using finalRenderable_streamChunks_cons cs c acc cur

/-- C5: for every finite fragment sequence, buffered-mode rendering
returns exactly the concatenation of the fragments, and every display
event before the single final print is a fixed event independent of the
fragments — the pre-clear notices and the transient progress spinner — so
no partial response output is visible before the sequence is fully
consumed. -/
theorem C5_buffered_concat_no_intermediate (h : Nat) (fs : List String) :
    handleNoStreamSearch h ⟨fs, none⟩ =
      (Except.ok (sjoin fs),
       noStreamPreEvents h ++
         [DisplayEvent.spinnerRemoved,
          DisplayEvent.printed ("Perplexity: " ++ sjoin fs)]) := by
  simp [handleNoStreamSearch, bufferLoop_eq]

/-- C6 (amended): for every finite fragment sequence and every
refresh-coalescing schedule, streaming-mode rendering returns exactly the
concatenation of the fragments, and the final visible frame is the fixed
label followed by exactly that concatenation (the initial empty renderable
when no fragment arrived), independent of which intermediate updates the
coalescing made visible. -/
theorem C6_streaming_final_render (fs : List String) (sched : List Bool) :
    (handleStreamingSearch ⟨fs, none⟩).1 = Except.ok (sjoin fs) ∧
    (visibleFrames sched ⟨fs, none⟩).getLast? =
      some (if fs.isEmpty then "" else "Perplexity: " ++ sjoin fs) := by
  constructor
  · simp [handleStreamingSearch, streamChunks_fst, String.empty_append]
  · simp [visibleFrames, List.getLast?_concat, handleStreamingSearch,
      finalRenderable_streamChunks, String.empty_append]

/-- C6 counterexample: after the single fragment Hello, the final visible
frame of streaming mode is the labelled string, not the bare concatenation
the claim states. -/
theorem C6_counterexample :
    (visibleFrames [] ⟨["Hello"], none⟩).getLast? = some "Perplexity: Hello" ∧
    some "Perplexity: Hello" ≠ some "Hello" := by
  constructor
  · rfl
  · decide

/-- C2: the renderers contain no try/except, so a fragment sequence that
terminates with TransportError after emitting Hello makes both renderers
propagate the error past the renderer boundary instead of returning the
partial text; the only display events are the normal ones, with no error
marker.  This contradicts the spec and the repository tests, which expect
the partial text back and a visible error message. -/
theorem C2_code_propagates_error :
    handleStreamingSearch ⟨["Hello"], some "boom"⟩ =
      (Except.error (PyErr.transport "boom"),
       [DisplayEvent.update "Perplexity: Hello"]) ∧
    handleNoStreamSearch 24 ⟨["Hello"], some "boom"⟩ =
      (Except.error (PyErr.transport "boom"),
       noStreamPreEvents 24 ++ [DisplayEvent.spinnerRemoved]) := by
  exact ⟨rfl, rfl⟩

/-- C1 counterexample: with empty context, query q and a failing search,
the loop leaves a user Turn in the context — the claim that no Turn at
all is appended for the failed exchange is false on the code, which
appends the user Turn before the try block. -/
theorem C1_counterexample :
    (interactiveStep [] "q" 24 (Except.error (PyErr.transport "boom"))).ctx =
      [⟨"user", "q"⟩] ∧ ([⟨"user", "q"⟩] : List Turn) ≠ [] := by
  exact ⟨rfl, by decide⟩

/-- C1 (amended): in interactive mode, for every submitted query whose
search fails with an ordinary exception, the loop reports the error both
to the interactive display and to the diagnostic stream, appends the user
Turn (added before the attempt) but no assistant Turn for the failed
exchange, and continues prompting for further input. -/
theorem C1_interactive_error_reported (ctx : List Turn) (q : String) (h : Nat)
    (e : PyErr) (hq1 : pyStrip q ≠ "") (hq2 : pyLower q ≠ "exit")
    (he : isException e = true) :
    (interactiveStep ctx q h (Except.error e)).ctx = ctx ++ [⟨"user", q⟩] ∧
    (interactiveStep ctx q h (Except.error e)).action = LoopAction.searched ∧
    errShown e ∈ (interactiveStep ctx q h (Except.error e)).shown ∧
    (interactiveStep ctx q h (Except.error e)).diag = [errShown e] ∧
    (∀ rest, runLoop ctx h (LoopEvent.line q (Except.error e) :: rest) =
        runLoop (ctx ++ [⟨"user", q⟩]) h rest) := by
  refine ⟨?_, ?_, ?_, ?_, ?_⟩ <;>
    simp [interactiveStep, runLoop, hq1, hq2, he]

/-- C1 witness: the amended statement at a concrete failing exchange. -/
theorem C1_witness :
    (pyStrip "hi" ≠ "" ∧ pyLower "hi" ≠ "exit" ∧
      isException (PyErr.transport "boom") = true) ∧
    ((interactiveStep [] "hi" 3 (Except.error (PyErr.transport "boom"))).ctx =
        [⟨"user", "hi"⟩] ∧
      (interactiveStep [] "hi" 3 (Except.error (PyErr.transport "boom"))).action =
        LoopAction.searched ∧
      errShown (PyErr.transport "boom") ∈
        (interactiveStep [] "hi" 3 (Except.error (PyErr.transport "boom"))).shown ∧
      (interactiveStep [] "hi" 3 (Except.error (PyErr.transport "boom"))).diag =
        [errShown (PyErr.transport "boom")] ∧
      (∀ rest,
          runLoop [] 3 (LoopEvent.line "hi" (Except.error (PyErr.transport "boom")) :: rest) =
            runLoop [⟨"user", "hi"⟩] 3 rest)) :=
  ⟨⟨by decide, by decide, rfl⟩,
    C1_interactive_error_reported [] "hi" 3 (PyErr.transport "boom")
      (by decide) (by decide) rfl⟩

/-- C3: for every submitted query and empty initial context, a successful
round trip leaves exactly two Turns, the user Turn with the query first
and the assistant Turn with the rendered text second, with the query
having been submitted to the search and the loop continuing. -/
theorem C3_round_trip_appends_two_turns (q content : String) (h : Nat)
    (hq1 : pyStrip q ≠ "") (hq2 : pyLower q ≠ "exit") :
    interactiveStep [] q h (Except.ok content) =
      ⟨[⟨"user", q⟩, ⟨"assistant", content⟩], LoopAction.searched,
       clearShown h, [], some q⟩ := by
  simp [interactiveStep, hq1, hq2]

/-- C3 witness: the statement at a concrete successful exchange. -/
theorem C3_witness :
    (pyStrip "hi" ≠ "" ∧ pyLower "hi" ≠ "exit") ∧
    interactiveStep [] "hi" 2 (Except.ok "there") =
      ⟨[⟨"user", "hi"⟩, ⟨"assistant", "there"⟩], LoopAction.searched,
       clearShown 2, [], some "hi"⟩ :=
  ⟨⟨by decide, by decide⟩,
    C3_round_trip_appends_two_turns "hi" "there" 2 (by decide) (by decide)⟩

/-- C7: blank input (empty after stripping) re-prompts without submitting
and appends no Turn; the literal exit in any letter case ends the loop
without appending a Turn; every other non-empty input is submitted to the
search as the query. -/
theorem C7_input_classification (ctx : List Turn) (s : String) (h : Nat)
    (r : Except PyErr String) :
    (pyStrip s = "" →
      interactiveStep ctx s h r =
        ⟨ctx, LoopAction.reprompted, [promptAgainMsg], [], none⟩) ∧
    (pyStrip s ≠ "" → pyLower s = "exit" →
      interactiveStep ctx s h r =
        ⟨ctx, LoopAction.exited, [exitMsg], [], none⟩) ∧
    (pyStrip s ≠ "" → pyLower s ≠ "exit" →
      (interactiveStep ctx s h r).submitted = some s) := by
  refine ⟨fun h1 => by simp [interactiveStep, h1],
          fun h1 h2 => by simp [interactiveStep, h1, h2], fun h1 h2 => ?_⟩
  cases r with
  | ok c => simp [interactiveStep, h1, h2]
  | error e =>
      by_cases he : isException e = true
      · simp [interactiveStep, h1, h2, he]
      · simp [interactiveStep, h1, h2, he]

/-- C7 witness: the three behaviours at concrete inputs — whitespace-only
input re-prompts, the mixed-case literal ExIt exits, and an ordinary
query is submitted. -/
theorem C7_witness :
    (pyStrip "  " = "" ∧
      interactiveStep [] "  " 2 (Except.ok "x") =
        ⟨[], LoopAction.reprompted, [promptAgainMsg], [], none⟩) ∧
    (pyStrip "ExIt" ≠ "" ∧ pyLower "ExIt" = "exit" ∧
      interactiveStep [] "ExIt" 2 (Except.ok "x") =
        ⟨[], LoopAction.exited, [exitMsg], [], none⟩) ∧
    (pyStrip "hello" ≠ "" ∧ pyLower "hello" ≠ "exit" ∧
      (interactiveStep [] "hello" 2 (Except.ok "x")).submitted = some "hello") :=
  ⟨⟨by decide,
      (C7_input_classification [] "  " 2 (Except.ok "x")).1 (by decide)⟩,
    ⟨by decide, by decide,
      (C7_input_classification [] "ExIt" 2 (Except.ok "x")).2.1
        (by decide) (by decide)⟩,
    ⟨by decide, by decide,
      (C7_input_classification [] "hello" 2 (Except.ok "x")).2.2
        (by decide) (by decide)⟩⟩

/-- After an interrupt stimulus the loop consumes nothing further: the
run is the same whatever would have followed the interrupt. -/
theorem runLoop_interrupt_stops (h : Nat) (post : List LoopEvent) :
    ∀ (pre : List LoopEvent) (ctx : List Turn),
      runLoop ctx h (pre ++ LoopEvent.interrupt :: post) =
        runLoop ctx h (pre ++ [LoopEvent.interrupt])
  | [], _ => rfl
  | LoopEvent.interrupt :: _, _ => rfl
  | LoopEvent.line s r :: pre, ctx => by
      have ih := runLoop_interrupt_stops h post pre (interactiveStep ctx s h r).ctx
      simp only [List.cons_append, runLoop]
      cases (interactiveStep ctx s h r).action <;> simp [ih]

/-- C9: with the SIGINT handler of setup_signal_handler installed, an
interrupt delivered at the prompt exits the process at once with code 0
and leaves the context untouched; an interrupt delivered mid-search (the
handler raising SystemExit 0 out of the in-flight handle_search, which no
except-Exception clause catches) exits with code 0 having appended only
the already-complete user Turn and no partial assistant Turn; and in
either case the loop never resumes — stimuli after the interrupt are
never consumed. -/
theorem C9_interrupt_terminates (ctx : List Turn) (h : Nat)
    (post : List LoopEvent) (s : String)
    (hq1 : pyStrip s ≠ "") (hq2 : pyLower s ≠ "exit") :
    runLoop ctx h (LoopEvent.interrupt :: post) =
      (ctx, ProcOutcome.exitedWith 0) ∧
    runLoop ctx h (LoopEvent.line s (Except.error sigintHandler.2) :: post) =
      (ctx ++ [⟨"user", s⟩], ProcOutcome.exitedWith 0) ∧
    (∀ pre, runLoop ctx h (pre ++ LoopEvent.interrupt :: post) =
        runLoop ctx h (pre ++ [LoopEvent.interrupt])) := by
  refine ⟨rfl, ?_, fun pre => runLoop_interrupt_stops h post pre ctx⟩
  simp [runLoop, interactiveStep, hq1, hq2, sigintHandler, isException,
    outcomeOfUncaught]

/-- C9 witness: the statement at a concrete query and empty context. -/
theorem C9_witness :
    (pyStrip "hi" ≠ "" ∧ pyLower "hi" ≠ "exit") ∧
    (runLoop [] 1 [LoopEvent.interrupt] = ([], ProcOutcome.exitedWith 0) ∧
      runLoop [] 1 [LoopEvent.line "hi" (Except.error sigintHandler.2)] =
        ([⟨"user", "hi"⟩], ProcOutcome.exitedWith 0) ∧
      (∀ pre, runLoop [] 1 (pre ++ [LoopEvent.interrupt]) =
          runLoop [] 1 (pre ++ [LoopEvent.interrupt]))) :=
  ⟨⟨by decide, by decide⟩,
    C9_interrupt_terminates [] 1 [] "hi" (by decide) (by decide)⟩

/-- C4: name resolution over the module namespace of core.py.  Whichever
way the no_stream condition evaluates, handle_search reads an unbound
global (os, or _build_api_payload when the or-expression short-circuits)
before the dispatch that could issue a request, so it raises NameError
first; handle_no_stream_search and handle_streaming_search each reach
perform_search — the very name whose call would issue the request — as
their first unbound read; main reads parse_arguments, unbound, as its
first global; and perform_search, which plexsearch/__init__.py line 7
imports from .core, is not among the names core.py binds, so importing
the package fails. -/
theorem C4_unbound_names :
    firstUnbound coreModuleNames (handleSearchGlobalReads false) =
      some "os" ∧
    firstUnbound coreModuleNames (handleSearchGlobalReads true) =
      some "_build_api_payload" ∧
    firstUnbound coreModuleNames handleNoStreamGlobalReads =
      some "perform_search" ∧
    handleNoStreamGlobalReads.getLast? = some "perform_search" ∧
    firstUnbound coreModuleNames handleStreamingGlobalReads =
      some "perform_search" ∧
    handleStreamingGlobalReads.getLast? = some "perform_search" ∧
    firstUnbound coreModuleNames mainGlobalReads = some "parse_arguments" ∧
    initImportsFromCore.contains "perform_search" = true ∧
    coreModuleNames.contains "perform_search" = false := by
  decide

/-- Lower-case hex digits round-trip through their value. -/
theorem hexVal_hexDigitChar (n : Nat) (hn : n < 16) :
    hexVal (hexDigitChar n) = some n := by
  interval_cases n <;> decide

/-- The parser consumes a bare closing quote at once. -/
theorem parseStrBody_quote (rest : List Char) :
    parseStrBody (Char.ofNat 34 :: rest) = some ([], rest) := by
  rw [parseStrBody.eq_def]
  simp

/-- The parser undoes an escaped quote. -/
theorem parseStrBody_escQuote (rest : List Char) :
    parseStrBody (Char.ofNat 92 :: Char.ofNat 34 :: rest) =
      (parseStrBody rest).map (fun p => (Char.ofNat 34 :: p.1, p.2)) := by
  rw [parseStrBody.eq_def]
  simp +decide

/-- The parser undoes an escaped backslash. -/
theorem parseStrBody_escBackslash (rest : List Char) :
    parseStrBody (Char.ofNat 92 :: Char.ofNat 92 :: rest) =
      (parseStrBody rest).map (fun p => (Char.ofNat 92 :: p.1, p.2)) := by
  rw [parseStrBody.eq_def]
  simp +decide

/-- The parser undoes a \u00XX escape with valid hex digits. -/
theorem parseStrBody_escU (u1 u2 : Char) (d1 d2 : Nat) (rest : List Char)
    (e1 : hexVal u1 = some d1) (e2 : hexVal u2 = some d2) :
    parseStrBody (Char.ofNat 92 :: 'u' :: '0' :: '0' :: u1 :: u2 :: rest) =
      (parseStrBody rest).map
        (fun p => (Char.ofNat (16 * d1 + d2) :: p.1, p.2)) := by
  rw [parseStrBody.eq_def]
  simp +decide [e1, e2]

/-- The parser passes an ordinary character through. -/
theorem parseStrBody_other (c : Char) (rest : List Char)
    (hc1 : c ≠ Char.ofNat 34) (hc2 : c ≠ Char.ofNat 92) :
    parseStrBody (c :: rest) =
      (parseStrBody rest).map (fun p => (c :: p.1, p.2)) := by
  rw [parseStrBody.eq_def]
  simp [hc1, hc2]

/-- The string-body parser undoes the JSON escaping and stops at the
closing quote. -/
theorem parseStrBody_escape : ∀ (s : List Char) (rest : List Char),
    parseStrBody (escapeStr s ++ Char.ofNat 34 :: rest) = some (s, rest)
  | [], rest => by simp [escapeStr, parseStrBody_quote]
  | c :: s, rest => by
      have ih := parseStrBody_escape s rest
      by_cases hc1 : c = Char.ofNat 34
      · subst hc1
        simp +decide [escapeStr, escChar, parseStrBody_escQuote, ih]
      · by_cases hc2 : c = Char.ofNat 92
        · subst hc2
          simp +decide [escapeStr, escChar, parseStrBody_escBackslash, ih]
        · by_cases hc3 : c.toNat < 32
          · have e1 : hexVal (hexDigitChar (c.toNat / 16)) =
                some (c.toNat / 16) := hexVal_hexDigitChar _ (by omega)
            have e2 : hexVal (hexDigitChar (c.toNat % 16)) =
                some (c.toNat % 16) := hexVal_hexDigitChar _ (by omega)
            have hu := parseStrBody_escU _ _ _ _
              (escapeStr s ++ Char.ofNat 34 :: rest) e1 e2
            simp only [escapeStr, escChar, if_neg hc1, if_neg hc2,
              if_pos hc3, List.cons_append, List.nil_append]
            rw [hu, ih]
            simp [Nat.div_add_mod, Char.ofNat_toNat]
          · simp only [escapeStr, escChar, if_neg hc1, if_neg hc2,
              if_neg hc3, List.cons_append, List.nil_append]
            rw [parseStrBody_other c _ hc1 hc2, ih]
            rfl

/-- Stripping a literal prefix from itself plus a remainder yields the
remainder. -/
theorem stripPref_append : ∀ (p r : List Char), stripPref p (p ++ r) = some r
  | [], _ => rfl
  | c :: p, r => by simp [stripPref, stripPref_append p r]

/-- A String rebuilt from its character data is itself. -/
theorem string_mk_data (s : String) : String.mk s.data = s := rfl

/-- One JSON parse undoes the serialization of one Turn. -/
theorem decodeTurn_encodeTurn (t : Turn) : decodeTurn (encodeTurn t) = some t := by
  obtain ⟨r, c⟩ := t
  simp [encodeTurn, decodeTurn, List.append_assoc, List.cons_append,
    stripPref_append, parseStrBody_escape, string_mk_data]

/-- Hex digit characters are never the newline. -/
theorem hexDigitChar_ne_newline (n : Nat) (hn : n < 16) :
    hexDigitChar n ≠ Char.ofNat 10 := by
  interval_cases n <;> decide

/-- Escaping a character never produces a raw newline: the newline itself
is a control character and gets the \u escape. -/
theorem newline_not_mem_escChar (c : Char) : Char.ofNat 10 ∉ escChar c := by
  by_cases hc1 : c = Char.ofNat 34
  · simp +decide [escChar, hc1]
  · by_cases hc2 : c = Char.ofNat 92
    · simp +decide [escChar, hc2]
    · by_cases hc3 : c.toNat < 32
      · have e1 := hexDigitChar_ne_newline (c.toNat / 16) (by omega)
        have e2 := hexDigitChar_ne_newline (c.toNat % 16) (by omega)
        simp +decide [escChar, hc1, hc2, hc3]
        exact ⟨fun h => e1 h.symm, fun h => e2 h.symm⟩
      · simp only [escChar, if_neg hc1, if_neg hc2, if_neg hc3,
          List.mem_singleton]
        intro h
        exact hc3 (by rw [← h]; decide)

/-- Escaped string bodies contain no raw newline. -/
theorem newline_not_mem_escapeStr : ∀ s : List Char,
    Char.ofNat 10 ∉ escapeStr s
  | [] => by simp [escapeStr]
  | c :: s => by
      simp only [escapeStr, List.mem_append]
      rintro (h | h)
      · exact newline_not_mem_escChar c h
      · exact newline_not_mem_escapeStr s h

/-- A serialized Turn record contains no raw newline, so it occupies
exactly one log line. -/
theorem newline_not_mem_encodeTurn (t : Turn) :
    Char.ofNat 10 ∉ encodeTurn t := by
  simp only [encodeTurn, List.mem_append, List.mem_cons]
  rintro ((((h | h) | h) | h) | h)
  · revert h; decide
  · exact newline_not_mem_escapeStr _ h
  · rcases h with h | h
    · revert h; decide
    · revert h; decide
  · exact newline_not_mem_escapeStr _ h
  · rcases h with h | h
    · revert h; decide
    · revert h; decide

/-- Splitting off one newline-free line. -/
theorem splitLines_append (l rest : List Char) (hl : Char.ofNat 10 ∉ l) :
    splitLines (l ++ Char.ofNat 10 :: rest) = l :: splitLines rest := by
  induction l with
  | nil => simp [splitLines]
  | cons c cs ih =>
      have hc : ¬(c = Char.ofNat 10) := fun h => hl (by simp [h])
      have hcs : Char.ofNat 10 ∉ cs := fun h => hl (List.mem_cons_of_mem _ h)
      simp [splitLines, hc, ih hcs]

/-- The log lines of a serialized Turn list are exactly the records. -/
theorem splitLines_encodeLines : ∀ ts : List Turn,
    splitLines (encodeLines ts) = ts.map encodeTurn
  | [] => rfl
  | t :: ts => by
      simp [encodeLines,
        splitLines_append _ _ (newline_not_mem_encodeTurn t),
        splitLines_encodeLines ts]

/-- Parsing the serialized records in order recovers the Turn list. -/
theorem decodeLines_map : ∀ ts : List Turn,
    decodeLines (ts.map encodeTurn) = some ts
  | [] => rfl
  | t :: ts => by
      simp [decodeLines, decodeTurn_encodeTurn, decodeLines_map ts]

/-- C8: writing any Turn list to the line-oriented log (one
JSON-serialized Turn per line, append mode starting from an empty file)
and reading the file back with one JSON parse per line yields the same
Turn list in the same order. -/
theorem C8_log_round_trip (ts : List Turn) :
    readLog (writeLog [] ts) = some ts := by
  simp [readLog, writeLog, splitLines_encodeLines, decodeLines_map]

/-- C10: the Markdown transcript block for the Turn with role user and
content Hello is exactly the bold capitalized role, a colon and space,
the content and a blank-line separator. -/
theorem C10_format_markdown :
    formatMessageToMarkdown ⟨"user", "Hello"⟩ = "**User**: Hello\n\n" := by
  decide

end PlexSearch
